import Mathlib

/-
Verification of the Glitcher animation component (src/glitch.ts).

Numbers are modelled as exact rationals: the source works in IEEE doubles,
and the spec asks for its arithmetic facts "within floating-point
tolerance", which the exact rational versions witness.  The JavaScript
coercion `x >> 0` (ToInt32 on a value of magnitude below 2^31) is
truncation toward zero, modelled by jsTruncQ.  Math.random() draws are
passed in as explicit rational arguments in [0,1).
-/

namespace Glitch

/-- JavaScript `x >> 0` on a double of magnitude below 2^31: truncation
toward zero, i.e. floor for nonnegative inputs and ceiling for negative
inputs. -/
def jsTruncQ (x : ℚ) : ℤ :=
  if 0 ≤ x then ⌊x⌋ else ⌈x⌉

/-- The optional numeric/string fields of IGlitchesOptions (the mandatory
text plays no role in validation). -/
structure GOptions where
  fontFamily : Option String := none
  fontWeight : Option ℚ := none
  phaseStep : Option ℚ := none
  alphaMin : Option ℚ := none
  amplitudeBase : Option ℚ := none
  amplitudeRange : Option ℚ := none
  glitchAmplitude : Option ℚ := none
  glitchThreshold : Option ℚ := none

/-- The configuration error thrown by initOptions: the source throws
`Error("<field> must be in range [<lo>,<hi>]")`, naming the offending
field and its valid range, which this structure carries. -/
structure ConfigError where
  field : String
  lo : ℚ
  hi : ℚ

deriving instance DecidableEq for ConfigError

/-- The validated, immutable configuration resulting from construction. -/
structure Config where
  fontFamily : String
  fontWeight : ℚ
  phaseStep : ℚ
  amplitudeBase : ℚ
  amplitudeRange : ℚ
  alphaMin : ℚ
  glitchAmplitude : ℚ
  glitchThreshold : ℚ

deriving instance DecidableEq for Config

/-- One bounded option check of initOptions: an absent field takes the
default, a present field is rejected when above hi or below lo
(mirroring `if (v > hi || v < lo) throw`). -/
def checkRange (v : Option ℚ) (dflt lo hi : ℚ) (field : String) :
    Except ConfigError ℚ :=
  match v with
  | none => .ok dflt
  | some x => if x > hi ∨ x < lo then .error ⟨field, lo, hi⟩ else .ok x

/-- initOptions: validates the six bounded numeric options in source order
(phaseStep, amplitudeBase, amplitudeRange, alphaMin, glitchAmplitude,
glitchThreshold), and merges the constructor defaults for fontFamily and
fontWeight. -/
def initOptions (o : GOptions) : Except ConfigError Config :=
  (checkRange o.phaseStep 0.05 0 1 "phaseStep").bind fun ps =>
  (checkRange o.amplitudeBase 2.0 0 5 "amplitudeBase").bind fun ab =>
  (checkRange o.amplitudeRange 2.0 0 5 "amplitudeRange").bind fun ar =>
  (checkRange o.alphaMin 0.8 0 1 "alphaMin").bind fun am =>
  (checkRange o.glitchAmplitude 20.0 0 100 "glitchAmplitude").bind fun ga =>
  (checkRange o.glitchThreshold 0.9 0 1 "glitchThreshold").bind fun gt =>
  .ok { fontFamily := o.fontFamily.getD "Arial",
        fontWeight := o.fontWeight.getD 500,
        phaseStep := ps, amplitudeBase := ab, amplitudeRange := ar,
        alphaMin := am, glitchAmplitude := ga, glitchThreshold := gt }

/-- Whether an Except value is a success. -/
def exceptOk (e : Except ConfigError Config) : Bool :=
  match e with
  | .ok _ => true
  | .error _ => false

/-- The per-frame animation state mutated by tick. -/
structure GState where
  phase : ℚ
  channel : ℕ
  amplitude : ℚ

deriving instance DecidableEq for GState

/-- The animation state set up by initOptions: channel 0, phase 0.0,
amplitude 0.0. -/
def initState : GState :=
  { phase := 0, channel := 0, amplitude := 0 }

/-- One tick state update: advance phase by phaseStep, and when the new
phase exceeds 1, reset it to 0, advance the channel
(`channel === 2 ? 0 : channel + 1`) and resample the amplitude as
amplitudeBase + amplitudeRange * r, where r is the Math.random() draw of
this tick. -/
def tickUpdate (cfg : Config) (s : GState) (r : ℚ) : GState :=
  let phase := s.phase + cfg.phaseStep
  if phase > 1 then
    { phase := 0,
      channel := if s.channel = 2 then 0 else s.channel + 1,
      amplitude := cfg.amplitudeBase + cfg.amplitudeRange * r }
  else
    { s with phase := phase }

/-- Run a sequence of ticks, one Math.random() draw per tick. -/
def runTicks (cfg : Config) (s : GState) (rs : List ℚ) : GState :=
  rs.foldl (tickUpdate cfg) s

/-- A concrete configuration used by witnesses: the defaults with
phaseStep 1/4. -/
def cfgA : Config :=
  { fontFamily := "Arial", fontWeight := 500, phaseStep := 1/4,
    amplitudeBase := 2, amplitudeRange := 2, alphaMin := 4/5,
    glitchAmplitude := 20, glitchThreshold := 9/10 }

theorem runTicks_phase_eq (cfg : Config) (hp : 0 ≤ cfg.phaseStep)
    (rs : List ℚ) : ∀ s : GState,
      s.phase + rs.length * cfg.phaseStep ≤ 1 →
      (runTicks cfg s rs).phase = s.phase + rs.length * cfg.phaseStep := by
  induction rs with
  | nil => intro s _; simp [runTicks]
  | cons r rs ih =>
    intro s h
    have hlen : (0 : ℚ) ≤ (rs.length : ℚ) * cfg.phaseStep := by positivity
    simp only [List.length_cons] at h
    push_cast at h
    have hstep : s.phase + cfg.phaseStep ≤ 1 := by nlinarith
    have hnw : ¬ (s.phase + cfg.phaseStep > 1) := not_lt.mpr hstep
    have hfold : runTicks cfg s (r :: rs) =
        runTicks cfg { s with phase := s.phase + cfg.phaseStep } rs := by
      simp [runTicks, tickUpdate, hnw]
    rw [hfold, ih]
    · simp only [List.length_cons]
      push_cast
      ring
    · show s.phase + cfg.phaseStep + (rs.length : ℚ) * cfg.phaseStep ≤ 1
      nlinarith

/-- C1: starting from phase 0, after k wrap-free ticks with step p the phase
is exactly k * p; and on any tick whose incremented phase exceeds 1, the
phase is reset to exactly 0. -/
theorem C1_phase_progression (cfg : Config) (rs : List ℚ)
    (hp : 0 ≤ cfg.phaseStep) (hk : (rs.length : ℚ) * cfg.phaseStep ≤ 1) :
    (runTicks cfg initState rs).phase = rs.length * cfg.phaseStep ∧
    ∀ (s : GState) (r : ℚ), s.phase + cfg.phaseStep > 1 →
      (tickUpdate cfg s r).phase = 0 := by
  constructor
  · have h := runTicks_phase_eq cfg hp rs initState
      (by simpa [initState] using hk)
    simpa [initState] using h
  · intro s r hw
    simp [tickUpdate, hw]

/-- C1 witness: three wrap-free ticks at step 1/4 reach phase 3/4. -/
theorem C1_phase_progression_witness :
    (0 : ℚ) ≤ cfgA.phaseStep ∧
    (([0, 0, 0] : List ℚ).length : ℚ) * cfgA.phaseStep ≤ 1 ∧
    ((runTicks cfgA initState [0, 0, 0]).phase =
      (([0, 0, 0] : List ℚ).length : ℚ) * cfgA.phaseStep ∧
    ∀ (s : GState) (r : ℚ), s.phase + cfgA.phaseStep > 1 →
      (tickUpdate cfgA s r).phase = 0) :=
  ⟨by norm_num [cfgA], by norm_num [cfgA],
    C1_phase_progression cfgA [0, 0, 0] (by norm_num [cfgA])
      (by norm_num [cfgA])⟩

theorem tickUpdate_channel_lt (cfg : Config) (s : GState) (r : ℚ)
    (h : s.channel < 3) : (tickUpdate cfg s r).channel < 3 := by
  by_cases hw : s.phase + cfg.phaseStep > 1
  · simp only [tickUpdate, if_pos hw]
    split <;> omega
  · simp only [tickUpdate, if_neg hw]
    exact h

theorem runTicks_channel_lt (cfg : Config) (rs : List ℚ) :
    ∀ s : GState, s.channel < 3 → (runTicks cfg s rs).channel < 3 := by
  induction rs with
  | nil => intro s h; simpa [runTicks] using h
  | cons r rs ih =>
    intro s h
    exact ih (tickUpdate cfg s r) (tickUpdate_channel_lt cfg s r h)

/-- C2: channel starts at 0, stays in {0,1,2} along any run, becomes
(channel + 1) % 3 exactly on a wrap tick, and is unchanged on a wrap-free
tick. -/
theorem C2_channel_cycling (cfg : Config) (rs : List ℚ) (s : GState) (r : ℚ) :
    initState.channel = 0 ∧
    (runTicks cfg initState rs).channel < 3 ∧
    (s.channel < 3 → s.phase + cfg.phaseStep > 1 →
      (tickUpdate cfg s r).channel = (s.channel + 1) % 3) ∧
    (¬ s.phase + cfg.phaseStep > 1 →
      (tickUpdate cfg s r).channel = s.channel) := by
  refine ⟨rfl, runTicks_channel_lt cfg rs initState (by simp [initState]),
    ?_, ?_⟩
  · intro h3 hw
    simp only [tickUpdate, if_pos hw]
    split_ifs with hc <;> omega
  · intro hnw
    simp [tickUpdate, hnw]

/-- C2 witness: at step 1/4, a wrap tick takes channel 1 to 2 = (1+1) % 3
and a wrap-free tick leaves channel 1 unchanged. -/
theorem C2_channel_cycling_witness :
    (initState.channel = 0 ∧
      (runTicks cfgA initState []).channel < 3 ∧
      (tickUpdate cfgA ⟨1, 1, 0⟩ 0).channel = (1 + 1) % 3) ∧
    (tickUpdate cfgA ⟨0, 1, 0⟩ 0).channel = 1 := by
  have h1 := C2_channel_cycling cfgA [] ⟨1, 1, 0⟩ 0
  have h2 := C2_channel_cycling cfgA [] ⟨0, 1, 0⟩ 0
  exact ⟨⟨h1.1, h1.2.1, h1.2.2.1 (by norm_num) (by norm_num [cfgA])⟩,
    h2.2.2.2 (by norm_num [cfgA])⟩

/-- C3: amplitude is unchanged on a wrap-free tick; on a wrap tick it
becomes amplitudeBase + amplitudeRange * r, which for a draw r in [0,1]
and nonnegative amplitudeRange lies in
[amplitudeBase, amplitudeBase + amplitudeRange]. -/
theorem C3_amplitude_resampling (cfg : Config) (s : GState) (r : ℚ) :
    (¬ s.phase + cfg.phaseStep > 1 →
      (tickUpdate cfg s r).amplitude = s.amplitude) ∧
    (s.phase + cfg.phaseStep > 1 →
      (tickUpdate cfg s r).amplitude =
        cfg.amplitudeBase + cfg.amplitudeRange * r) ∧
    (s.phase + cfg.phaseStep > 1 → 0 ≤ r → r ≤ 1 → 0 ≤ cfg.amplitudeRange →
      cfg.amplitudeBase ≤ (tickUpdate cfg s r).amplitude ∧
      (tickUpdate cfg s r).amplitude ≤
        cfg.amplitudeBase + cfg.amplitudeRange) := by
  refine ⟨?_, ?_, ?_⟩
  · intro hnw; simp [tickUpdate, hnw]
  · intro hw; simp [tickUpdate, hw]
  · intro hw hr0 hr1 hrange
    have ha : (tickUpdate cfg s r).amplitude =
        cfg.amplitudeBase + cfg.amplitudeRange * r := by
      simp [tickUpdate, hw]
    rw [ha]
    constructor
    · nlinarith [mul_nonneg hrange hr0]
    · nlinarith [mul_le_mul_of_nonneg_left hr1 hrange]

/-- C3 witness: a wrap-free tick keeps amplitude 7; a wrap tick with draw
1/2 resamples it to 2 + 2 * (1/2), inside [2, 4]. -/
theorem C3_amplitude_resampling_witness :
    (tickUpdate cfgA ⟨0, 0, 7⟩ (1/2)).amplitude = 7 ∧
    (tickUpdate cfgA ⟨1, 0, 7⟩ (1/2)).amplitude =
      cfgA.amplitudeBase + cfgA.amplitudeRange * (1/2) ∧
    (cfgA.amplitudeBase ≤ (tickUpdate cfgA ⟨1, 0, 7⟩ (1/2)).amplitude ∧
      (tickUpdate cfgA ⟨1, 0, 7⟩ (1/2)).amplitude ≤
        cfgA.amplitudeBase + cfgA.amplitudeRange) := by
  have h1 := C3_amplitude_resampling cfgA ⟨0, 0, 7⟩ (1/2)
  have h2 := C3_amplitude_resampling cfgA ⟨1, 0, 7⟩ (1/2)
  exact ⟨h1.1 (by norm_num [cfgA]), h2.2.1 (by norm_num [cfgA]),
    h2.2.2 (by norm_num [cfgA]) (by norm_num) (by norm_num)
      (by norm_num [cfgA])⟩

/-- The base offset computed at the top of render:
`x0 = (amplitude * Math.sin(Math.PI * 2 * phase)) >> 0`.  The sine value
sin(2 * pi * phase) is passed in as the argument sinv, keeping the
embedding rational; the int32 coercion is jsTruncQ. -/
def x0base (amplitude sinv : ℚ) : ℤ :=
  jsTruncQ (amplitude * sinv)

/-- The offset after the glitch trigger: x0 is multiplied by
glitchAmplitude exactly when the draw r satisfies r >= glitchThreshold. -/
def glitchedX0 (amplitude sinv r thr gAmp : ℚ) : ℚ :=
  if r ≥ thr then (x0base amplitude sinv : ℚ) * gAmp
  else (x0base amplitude sinv : ℚ)

/-- C4 fails as stated: at phase 3/4 the sine of 2 * pi * phase is exactly
-1, and at the reachable amplitude 5/2 the source computes
x0 = (5/2 * -1) >> 0 = -2 (truncation toward zero), while the floor of
5/2 * -1 is -3. -/
theorem C4_counterexample :
    Real.sin (Real.pi * 2 * (3 / 4 : ℝ)) = -1 ∧
    x0base (5 / 2) (-1) = -2 ∧
    ⌊(5 / 2 : ℚ) * (-1 : ℚ)⌋ = -3 ∧
    x0base (5 / 2) (-1) ≠ ⌊(5 / 2 : ℚ) * (-1 : ℚ)⌋ := by
  refine ⟨?_, ?_, ?_, ?_⟩
  · have h : Real.pi * 2 * (3 / 4 : ℝ) = Real.pi / 2 + Real.pi := by ring
    rw [h, Real.sin_add_pi, Real.sin_pi_div_two]
  · norm_num [x0base, jsTruncQ, Int.ceil_eq_iff]
  · norm_num
  · norm_num [x0base, jsTruncQ, Int.ceil_eq_iff]

/-- C4 amended: x0 is the int32 truncation toward zero of
amplitude * sin(2 * pi * phase), which coincides with the floor exactly
when the product is nonnegative (it is the ceiling on negative products);
it is multiplied by glitchAmplitude exactly when the draw r satisfies
r >= glitchThreshold; and amplitude 0 gives offset 0 regardless of the
glitch trigger. -/
theorem C4_base_offset (amplitude sinv r thr gAmp : ℚ) :
    (0 ≤ amplitude * sinv → x0base amplitude sinv = ⌊amplitude * sinv⌋) ∧
    (amplitude * sinv < 0 → x0base amplitude sinv = ⌈amplitude * sinv⌉) ∧
    (r ≥ thr → glitchedX0 amplitude sinv r thr gAmp =
      (x0base amplitude sinv : ℚ) * gAmp) ∧
    (r < thr → glitchedX0 amplitude sinv r thr gAmp =
      (x0base amplitude sinv : ℚ)) ∧
    glitchedX0 0 sinv r thr gAmp = 0 := by
  refine ⟨?_, ?_, ?_, ?_, ?_⟩
  · intro h; simp [x0base, jsTruncQ, h]
  · intro h; simp [x0base, jsTruncQ, not_le.mpr h]
  · intro h; simp [glitchedX0, h]
  · intro h; simp [glitchedX0, not_le.mpr h]
  · simp [glitchedX0, x0base, jsTruncQ]

/-- C4 amended witness: both truncation branches, both glitch branches,
and the zero-amplitude case at concrete inputs. -/
theorem C4_base_offset_witness :
    ((0 : ℚ) ≤ 2 * 1 ∧ x0base 2 1 = ⌊(2 : ℚ) * 1⌋) ∧
    ((2 : ℚ) * (-1) < 0 ∧ x0base 2 (-1) = ⌈(2 : ℚ) * (-1)⌉) ∧
    ((3 / 4 : ℚ) ≥ 1 / 2 ∧
      glitchedX0 2 1 (3 / 4) (1 / 2) 20 = (x0base 2 1 : ℚ) * 20) ∧
    ((1 / 4 : ℚ) < 1 / 2 ∧
      glitchedX0 2 1 (1 / 4) (1 / 2) 20 = (x0base 2 1 : ℚ)) ∧
    glitchedX0 0 1 (1 / 4) (1 / 2) 20 = 0 := by
  have h1 := C4_base_offset 2 1 (3 / 4) (1 / 2) 20
  have h2 := C4_base_offset 2 (-1) (3 / 4) (1 / 2) 20
  have h3 := C4_base_offset 2 1 (1 / 4) (1 / 2) 20
  exact ⟨⟨by norm_num, h1.1 (by norm_num)⟩,
    ⟨by norm_num, h2.2.1 (by norm_num)⟩,
    ⟨by norm_num, h1.2.2.1 (by norm_num)⟩,
    ⟨by norm_num, h3.2.2.2.1 (by norm_num)⟩,
    h3.2.2.2.2⟩

/-- Canvas composite operations relevant to the component: the canvas
default source-over and the members of the compOp field's union type. -/
inductive CompOp where
  | sourceOver
  | lighter
  | darker
  | xorOp

deriving instance DecidableEq for CompOp

/-- Ink colors of the three text passes. -/
inductive InkColor where
  | red
  | green
  | blue

deriving instance DecidableEq for InkColor

/-- One fillText call: its fill color, the composite operation in effect
on the surface at the moment of the call, and its x position. -/
structure TextPass where
  color : InkColor
  op : CompOp
  x : ℚ

deriving instance DecidableEq for TextPass

/-- renderChannels: paints red at xa under the composite operation the
surface currently carries (ambient), then sets the surface operation to
the compOp field and paints green at xb and blue at xc; returns the
passes together with the operation left on the surface. -/
def renderChannels (ambient compOp : CompOp) (xa xb xc : ℚ) :
    List TextPass × CompOp :=
  ([{ color := .red, op := ambient, x := xa },
    { color := .green, op := compOp, x := xb },
    { color := .blue, op := compOp, x := xc }], compOp)

/-- The channel dispatch in render: x1 = width >> 1, x2 = x1 + x0,
x3 = x1 - x0, passed to renderChannels in the order given by the channel
switch; an out-of-range channel matches no case and paints nothing. -/
def renderFrame (channel : ℕ) (width : ℕ) (x0 : ℚ)
    (ambient compOp : CompOp) : List TextPass × CompOp :=
  let x1 : ℚ := (width / 2 : ℕ)
  let x2 := x1 + x0
  let x3 := x1 - x0
  match channel with
  | 0 => renderChannels ambient compOp x1 x2 x3
  | 1 => renderChannels ambient compOp x2 x3 x1
  | 2 => renderChannels ambient compOp x3 x1 x2
  | _ => ([], ambient)

/-- C5 fails as stated: renderChannels leaves the composite operation set
to lighter and nothing ever restores source-over, so in the second of two
consecutive frames the red pass is drawn with lighter rather than as a
replacing (source-over) pass.  Frame one starts from the canvas default
source-over; frame two inherits lighter from frame one. -/
theorem C5_counterexample :
    (renderFrame 0 100 1
      (renderFrame 0 100 1 CompOp.sourceOver CompOp.lighter).2
      CompOp.lighter).1.map TextPass.op =
      [CompOp.lighter, CompOp.lighter, CompOp.lighter] ∧
    CompOp.lighter ≠ CompOp.sourceOver :=
  ⟨rfl, by decide⟩

/-- C5 amended: with center = width >> 1, channel 0 assigns
(center, center + x0, center - x0) to the (red, green, blue) passes,
channel 1 assigns (center + x0, center - x0, center), and channel 2
assigns (center - x0, center, center + x0); the green and blue passes are
always drawn with additive (lighter) compositing; the red pass is drawn
with the operation the surface carries into the frame, and every frame
leaves lighter on the surface, so the red pass replaces destination
pixels (source-over) only in a frame entered with source-over, i.e. the
very first one. -/
theorem C5_paint_passes (width : ℕ) (x0 : ℚ) (ambient : CompOp) :
    (renderFrame 0 width x0 ambient .lighter =
      ([{ color := .red, op := ambient, x := ((width / 2 : ℕ) : ℚ) },
        { color := .green, op := .lighter,
          x := ((width / 2 : ℕ) : ℚ) + x0 },
        { color := .blue, op := .lighter,
          x := ((width / 2 : ℕ) : ℚ) - x0 }], .lighter)) ∧
    (renderFrame 1 width x0 ambient .lighter =
      ([{ color := .red, op := ambient, x := ((width / 2 : ℕ) : ℚ) + x0 },
        { color := .green, op := .lighter,
          x := ((width / 2 : ℕ) : ℚ) - x0 },
        { color := .blue, op := .lighter,
          x := ((width / 2 : ℕ) : ℚ) }], .lighter)) ∧
    (renderFrame 2 width x0 ambient .lighter =
      ([{ color := .red, op := ambient, x := ((width / 2 : ℕ) : ℚ) - x0 },
        { color := .green, op := .lighter,
          x := ((width / 2 : ℕ) : ℚ) },
        { color := .blue, op := .lighter,
          x := ((width / 2 : ℕ) : ℚ) + x0 }], .lighter)) :=
  ⟨rfl, rfl, rfl⟩

/-- The number of scanline applications performed at the end of render for
the extra-pass draw r: one unconditional call, plus a second one when
Math.floor(r * 2) > 1. -/
def scanlineApplications (r : ℚ) : ℕ :=
  if ⌊r * 2⌋ > 1 then 2 else 1

/-- C6: for every draw r in [0,1), floor(r * 2) is at most 1, so the guard
of the second scanline pass is false and render applies the scanline
distortion exactly once. -/
theorem C6_second_scanline_dead (r : ℚ) (_h0 : 0 ≤ r) (h1 : r < 1) :
    ¬ (⌊r * 2⌋ > 1) ∧ scanlineApplications r = 1 := by
  have h2 : ⌊r * 2⌋ < 2 := by
    rw [Int.floor_lt]
    push_cast
    linarith
  have hn : ¬ (⌊r * 2⌋ > 1) := by omega
  exact ⟨hn, by simp [scanlineApplications, hn]⟩

/-- C6 witness at the draw 1/2. -/
theorem C6_second_scanline_dead_witness :
    ((0 : ℚ) ≤ 1 / 2 ∧ (1 / 2 : ℚ) < 1) ∧
    ¬ (⌊(1 / 2 : ℚ) * 2⌋ > 1) ∧ scanlineApplications (1 / 2) = 1 :=
  ⟨⟨by norm_num, by norm_num⟩,
    C6_second_scanline_dead (1 / 2) (by norm_num) (by norm_num)⟩

/-- C7: for each bounded numeric option, a value strictly outside the
documented range makes initOptions fail with the error naming that field
and its range, while a value exactly at either boundary succeeds. -/
theorem C7_config_validation (v : ℚ) :
    ((v < 0 ∨ v > 1) →
      initOptions { phaseStep := some v } = .error ⟨"phaseStep", 0, 1⟩) ∧
    ((v < 0 ∨ v > 5) →
      initOptions { amplitudeBase := some v } =
        .error ⟨"amplitudeBase", 0, 5⟩) ∧
    ((v < 0 ∨ v > 5) →
      initOptions { amplitudeRange := some v } =
        .error ⟨"amplitudeRange", 0, 5⟩) ∧
    ((v < 0 ∨ v > 1) →
      initOptions { alphaMin := some v } = .error ⟨"alphaMin", 0, 1⟩) ∧
    ((v < 0 ∨ v > 100) →
      initOptions { glitchAmplitude := some v } =
        .error ⟨"glitchAmplitude", 0, 100⟩) ∧
    ((v < 0 ∨ v > 1) →
      initOptions { glitchThreshold := some v } =
        .error ⟨"glitchThreshold", 0, 1⟩) ∧
    exceptOk (initOptions { phaseStep := some 0 }) = true ∧
    exceptOk (initOptions { phaseStep := some 1 }) = true ∧
    exceptOk (initOptions { amplitudeBase := some 0 }) = true ∧
    exceptOk (initOptions { amplitudeBase := some 5 }) = true ∧
    exceptOk (initOptions { amplitudeRange := some 0 }) = true ∧
    exceptOk (initOptions { amplitudeRange := some 5 }) = true ∧
    exceptOk (initOptions { alphaMin := some 0 }) = true ∧
    exceptOk (initOptions { alphaMin := some 1 }) = true ∧
    exceptOk (initOptions { glitchAmplitude := some 0 }) = true ∧
    exceptOk (initOptions { glitchAmplitude := some 100 }) = true ∧
    exceptOk (initOptions { glitchThreshold := some 0 }) = true ∧
    exceptOk (initOptions { glitchThreshold := some 1 }) = true := by
  refine ⟨?_, ?_, ?_, ?_, ?_, ?_, ?_, ?_, ?_, ?_, ?_, ?_, ?_, ?_, ?_, ?_,
    ?_, ?_⟩ <;>
  first
    | (intro h
       rcases h with h | h <;>
         simp [initOptions, checkRange, Except.bind, h])
    | norm_num [initOptions, checkRange, exceptOk, Except.bind]

/-- C7 witness: the value 101 violates every upper bound and produces the
corresponding field-naming error for each option. -/
theorem C7_config_validation_witness :
    ((101 : ℚ) < 0 ∨ (101 : ℚ) > 1) ∧
    initOptions { phaseStep := some 101 } = .error ⟨"phaseStep", 0, 1⟩ ∧
    initOptions { amplitudeBase := some 101 } =
      .error ⟨"amplitudeBase", 0, 5⟩ ∧
    initOptions { amplitudeRange := some 101 } =
      .error ⟨"amplitudeRange", 0, 5⟩ ∧
    initOptions { alphaMin := some 101 } = .error ⟨"alphaMin", 0, 1⟩ ∧
    initOptions { glitchAmplitude := some 101 } =
      .error ⟨"glitchAmplitude", 0, 100⟩ ∧
    initOptions { glitchThreshold := some 101 } =
      .error ⟨"glitchThreshold", 0, 1⟩ := by
  have h := C7_config_validation 101
  exact ⟨by norm_num, h.1 (by norm_num), h.2.1 (by norm_num),
    h.2.2.1 (by norm_num), h.2.2.2.1 (by norm_num),
    h.2.2.2.2.1 (by norm_num), h.2.2.2.2.2.1 (by norm_num)⟩

/-- C8: with every option omitted, construction succeeds and yields
exactly the documented defaults. -/
theorem C8_defaults :
    initOptions {} =
      .ok { fontFamily := "Arial", fontWeight := 500, phaseStep := 0.05,
            amplitudeBase := 2.0, amplitudeRange := 2.0, alphaMin := 0.8,
            glitchAmplitude := 20.0, glitchThreshold := 0.9 } :=
  rfl

/-- Scanline constants assigned in initOptions: base 40, range 40,
shift 15. -/
def scanlineBase : ℚ := 40

/-- See scanlineBase. -/
def scanlineRange : ℚ := 40

/-- See scanlineBase. -/
def scanlineShift : ℚ := 15

/-- The two samples drawn by renderScanline from the draws r1 and r2: the
brightness offset s = (scanlineBase + scanlineRange * r1) >> 0 and the
displacement x = (-scanlineShift + scanlineShift * 2 * r2) >> 0. -/
def scanlineSample (r1 r2 : ℚ) : ℤ × ℤ :=
  (jsTruncQ (scanlineBase + scanlineRange * r1),
   jsTruncQ (-scanlineShift + scanlineShift * 2 * r2))

theorem jsTruncQ_mem (lo hi : ℤ) (x : ℚ) (hpos : 0 < hi)
    (hlo : (lo : ℚ) ≤ x) (hhi : x < (hi : ℚ)) :
    lo ≤ jsTruncQ x ∧ jsTruncQ x < hi := by
  unfold jsTruncQ
  split_ifs with h
  · exact ⟨Int.le_floor.mpr hlo, Int.floor_lt.mpr hhi⟩
  · constructor
    · calc lo ≤ ⌊x⌋ := Int.le_floor.mpr hlo
        _ ≤ ⌈x⌉ := Int.floor_le_ceil x
    · have hx0 : x ≤ ((0 : ℤ) : ℚ) := by
        push_cast
        linarith [not_le.mp h]
      have hc : ⌈x⌉ ≤ 0 := Int.ceil_le.mpr hx0
      omega

/-- C9: for draws in [0,1), the brightness offset lies in
[scanlineBase, scanlineBase + scanlineRange) = [40, 80) and the
displacement lies in [-scanlineShift, scanlineShift) = [-15, 15). -/
theorem C9_scanline_ranges (r1 r2 : ℚ)
    (h10 : 0 ≤ r1) (h11 : r1 < 1) (h20 : 0 ≤ r2) (h21 : r2 < 1) :
    scanlineBase ≤ ((scanlineSample r1 r2).1 : ℚ) ∧
    ((scanlineSample r1 r2).1 : ℚ) < scanlineBase + scanlineRange ∧
    -scanlineShift ≤ ((scanlineSample r1 r2).2 : ℚ) ∧
    ((scanlineSample r1 r2).2 : ℚ) < scanlineShift := by
  simp only [scanlineSample, scanlineBase, scanlineRange, scanlineShift]
  have hs := jsTruncQ_mem 40 80 (40 + 40 * r1) (by norm_num)
    (by push_cast; linarith) (by push_cast; linarith)
  have hx := jsTruncQ_mem (-15) 15 (-15 + 15 * 2 * r2) (by norm_num)
    (by push_cast; linarith) (by push_cast; linarith)
  refine ⟨?_, ?_, ?_, ?_⟩
  · exact_mod_cast hs.1
  · have h80 : (jsTruncQ (40 + 40 * r1) : ℚ) < 80 := by exact_mod_cast hs.2
    linarith
  · exact_mod_cast hx.1
  · exact_mod_cast hx.2

/-- C9 witness at the draws 1/2 and 1/2. -/
theorem C9_scanline_ranges_witness :
    ((0 : ℚ) ≤ 1 / 2 ∧ (1 / 2 : ℚ) < 1) ∧
    (scanlineBase ≤ ((scanlineSample (1 / 2) (1 / 2)).1 : ℚ) ∧
      ((scanlineSample (1 / 2) (1 / 2)).1 : ℚ) <
        scanlineBase + scanlineRange ∧
      -scanlineShift ≤ ((scanlineSample (1 / 2) (1 / 2)).2 : ℚ) ∧
      ((scanlineSample (1 / 2) (1 / 2)).2 : ℚ) < scanlineShift) :=
  ⟨⟨by norm_num, by norm_num⟩,
    C9_scanline_ranges (1 / 2) (1 / 2) (by norm_num) (by norm_num)
      (by norm_num) (by norm_num)⟩

/-- The instance fields of the Glitcher class, together with the canvas
element's own width and height attributes. -/
structure GlitcherState where
  text : String
  fontFamily : String
  fontWeight : ℚ
  textSize : ℤ
  canvasWidth : ℕ
  canvasHeight : ℕ
  width : ℕ
  height : ℕ
  font : String
  textWidth : ℚ
  channel : ℕ
  compOp : CompOp
  scanlineRange : ℚ
  scanlineBase : ℚ
  glitchThreshold : ℚ
  glitchAmplitude : ℚ
  alphaMin : ℚ
  amplitudeRange : ℚ
  amplitudeBase : ℚ
  amplitude : ℚ
  phaseStep : ℚ
  phase : ℚ
  scanlineShift : ℚ

/-- The font shorthand string built from weight, size (in px) and
family. -/
def mkFont (weight : ℚ) (size : ℤ) (family : String) : String :=
  toString weight ++ " " ++ toString size ++ "px " ++ family

/-- resize: re-reads the viewport, resizes the canvas to it, recomputes
textSize as floor(canvas.width / 14) clamped to floor(canvas.height / 1.5)
when it exceeds the height, rebuilds the font string, and re-measures the
text width.  The measure argument stands for context.measureText under a
given font. -/
def resize (s : GlitcherState) (vw vh : ℕ)
    (measure : String → String → ℚ) : GlitcherState :=
  let width := vw
  let height := vh
  let ts0 : ℤ := ⌊(width : ℚ) / 14⌋
  let ts : ℤ := if (height : ℤ) < ts0 then ⌊(height : ℚ) / 1.5⌋ else ts0
  let font := mkFont s.fontWeight ts s.fontFamily
  { s with
    width := width
    height := height
    canvasWidth := width
    canvasHeight := height
    textSize := ts
    font := font
    textWidth := measure font s.text }

/-- C10: resize changes only width, height, the canvas dimensions,
textSize, font and the cached textWidth; the animation state (phase,
channel, amplitude), every configured option value, the text, the compOp
field and the scanline constants are unchanged. -/
theorem C10_resize_frame (s : GlitcherState) (vw vh : ℕ)
    (measure : String → String → ℚ) :
    (resize s vw vh measure).phase = s.phase ∧
    (resize s vw vh measure).channel = s.channel ∧
    (resize s vw vh measure).amplitude = s.amplitude ∧
    (resize s vw vh measure).phaseStep = s.phaseStep ∧
    (resize s vw vh measure).amplitudeBase = s.amplitudeBase ∧
    (resize s vw vh measure).amplitudeRange = s.amplitudeRange ∧
    (resize s vw vh measure).alphaMin = s.alphaMin ∧
    (resize s vw vh measure).glitchAmplitude = s.glitchAmplitude ∧
    (resize s vw vh measure).glitchThreshold = s.glitchThreshold ∧
    (resize s vw vh measure).fontFamily = s.fontFamily ∧
    (resize s vw vh measure).fontWeight = s.fontWeight ∧
    (resize s vw vh measure).text = s.text ∧
    (resize s vw vh measure).compOp = s.compOp ∧
    (resize s vw vh measure).scanlineBase = s.scanlineBase ∧
    (resize s vw vh measure).scanlineRange = s.scanlineRange ∧
    (resize s vw vh measure).scanlineShift = s.scanlineShift ∧
    (resize s vw vh measure).width = vw ∧
    (resize s vw vh measure).height = vh ∧
    (resize s vw vh measure).canvasWidth = vw ∧
    (resize s vw vh measure).canvasHeight = vh ∧
    (resize s vw vh measure).textSize =
      (if (vh : ℤ) < ⌊(vw : ℚ) / 14⌋ then ⌊(vh : ℚ) / 1.5⌋
       else ⌊(vw : ℚ) / 14⌋) ∧
    (resize s vw vh measure).font =
      mkFont s.fontWeight (resize s vw vh measure).textSize s.fontFamily ∧
    (resize s vw vh measure).textWidth =
      measure (resize s vw vh measure).font s.text :=
  ⟨rfl, rfl, rfl, rfl, rfl, rfl, rfl, rfl, rfl, rfl, rfl, rfl, rfl, rfl,
    rfl, rfl, rfl, rfl, rfl, rfl, rfl, rfl, rfl⟩

end Glitch
